import Mathlib

/-!
Verification of the conversion/validation core of the `sysexits` crate.

The development shallowly embeds the Rust sources:

* `ExitCode` (src/exit_code.rs, lines 29-229): the closed enumeration of the
  16 `<sysexits.h>` exit-code variants, with discriminants `Ok = 0`,
  `Usage = 64`, then successive increments up to `Config = 78`.
* `From<ExitCode> for $T` (src/exit_code/convert.rs, lines 12-56): the
  widening cast `code as $T`, embedded as `ExitCode.toInt` (the discriminant
  as an unbounded integer; every implemented width `i8..=i128`, `u8..=u128`,
  `isize`, `usize` represents `0..=78` exactly, so one integer-valued
  function covers all of them).
* `TryFrom<$T> for ExitCode` (src/exit_code/convert.rs, lines 69-146): the
  exhaustive literal match, embedded as `tryFromInt`.  The match body is
  identical for every integer width, and each width embeds into `Int`
  preserving the literals, so the single `Int`-valued embedding covers all
  twelve instantiations.
* `From<std::io::ErrorKind> for ExitCode` (src/exit_code/convert.rs, lines
  171-211): the total classifier, embedded as `fromErrorKind`.  The arms
  guarded by `#[cfg(feature = "extended_io_error")]` are included, matching
  the configuration the crate documents and tests.
* `From<std::io::Error> for ExitCode` (src/exit_code/convert.rs, lines
  148-168): delegates to the classifier on `error.kind()`.
* `TryFrom<std::process::ExitStatus> for ExitCode` (src/exit_code/convert.rs,
  lines 214-249): embedded as `tryFromExitStatus` over a status modelled by
  its optional numeric code (`ExitStatus.code`).
* `TryFromExitStatusError` (src/error.rs, lines 44-60) and
  `ExitCodeRangeError` (a unit struct, used as a value at
  src/exit_code/convert.rs line 109).
* `From<Result<T>> for ExitCode` (src/exit_code/result.rs, lines 16-44):
  the collapsing conversion, embedded as `fromResult`.
* `is_success` / `is_failure` (src/exit_code.rs, lines 245-264).
-/

namespace Sysexits

/-- The closed enumeration of `<sysexits.h>` exit codes
(src/exit_code.rs, lines 29-229).  Rust assigns discriminant 0 to `Ok`,
64 to `Usage`, and successive values 65..78 to the following variants. -/
inductive ExitCode where
  | Ok
  | Usage
  | DataErr
  | NoInput
  | NoUser
  | NoHost
  | Unavailable
  | Software
  | OsErr
  | OsFile
  | CantCreat
  | IoErr
  | TempFail
  | Protocol
  | NoPerm
  | Config
deriving DecidableEq

/-- The discriminant of each variant, i.e. the result of the widening cast
`code as $T` in `From<ExitCode> for $T` (src/exit_code/convert.rs, lines
12-56).  Values per the Rust declaration: `Ok` is 0 (first variant), `Usage`
is declared `= 64`, and each later variant increments by one. -/
def ExitCode.toInt : ExitCode → Int
  | .Ok => 0
  | .Usage => 64
  | .DataErr => 65
  | .NoInput => 66
  | .NoUser => 67
  | .NoHost => 68
  | .Unavailable => 69
  | .Software => 70
  | .OsErr => 71
  | .OsFile => 72
  | .CantCreat => 73
  | .IoErr => 74
  | .TempFail => 75
  | .Protocol => 76
  | .NoPerm => 77
  | .Config => 78

/-- Mirrors `ExitCode::is_success` (src/exit_code.rs, lines 245-247):
`matches!(self, Self::Ok)`. -/
def ExitCode.is_success : ExitCode → Bool
  | .Ok => true
  | _ => false

/-- Mirrors `ExitCode::is_failure` (src/exit_code.rs, lines 262-264):
`!self.is_success()`. -/
def ExitCode.is_failure (c : ExitCode) : Bool :=
  !c.is_success

/-- Mirrors `ExitCodeRangeError` (used as a unit value at
src/exit_code/convert.rs line 109; the struct declaration itself is a unit
struct carrying no payload, per the spec's description of the range error). -/
inductive ExitCodeRangeError where
  | mk
deriving DecidableEq

/-- Mirrors `TryFrom<$T> for ExitCode` (src/exit_code/convert.rs, lines
91-111): an exhaustive match on the 17 legal literals with a catch-all
returning `Err(ExitCodeRangeError)`. -/
def tryFromInt (value : Int) : Except ExitCodeRangeError ExitCode :=
  match value with
  | 0 => .ok .Ok
  | 64 => .ok .Usage
  | 65 => .ok .DataErr
  | 66 => .ok .NoInput
  | 67 => .ok .NoUser
  | 68 => .ok .NoHost
  | 69 => .ok .Unavailable
  | 70 => .ok .Software
  | 71 => .ok .OsErr
  | 72 => .ok .OsFile
  | 73 => .ok .CantCreat
  | 74 => .ok .IoErr
  | 75 => .ok .TempFail
  | 76 => .ok .Protocol
  | 77 => .ok .NoPerm
  | 78 => .ok .Config
  | _ => .error ExitCodeRangeError.mk

/-- The abstract operating-system I/O error categories
(`std::io::ErrorKind`), as matched by the crate (src/exit_code/convert.rs,
lines 184-211) and exercised by its tests; `Other` stands for the open end
of the taxonomy, reaching the catch-all arm like every unlisted category. -/
inductive ErrorKind where
  | NotFound
  | PermissionDenied
  | ConnectionRefused
  | ConnectionReset
  | ConnectionAborted
  | NotConnected
  | AddrInUse
  | AddrNotAvailable
  | NetworkDown
  | BrokenPipe
  | AlreadyExists
  | WouldBlock
  | NotADirectory
  | IsADirectory
  | DirectoryNotEmpty
  | ReadOnlyFilesystem
  | FilesystemLoop
  | StaleNetworkFileHandle
  | InvalidInput
  | InvalidData
  | TimedOut
  | WriteZero
  | StorageFull
  | NotSeekable
  | QuotaExceeded
  | FileTooLarge
  | ResourceBusy
  | ExecutableFileBusy
  | Deadlock
  | CrossesDevices
  | TooManyLinks
  | InvalidFilename
  | ArgumentListTooLong
  | Interrupted
  | Unsupported
  | UnexpectedEof
  | OutOfMemory
  | HostUnreachable
  | NetworkUnreachable
  | InProgress
  | Other
deriving DecidableEq

/-- Mirrors `From<std::io::ErrorKind> for ExitCode` (src/exit_code/convert.rs,
lines 184-211), including the arms guarded by
`#[cfg(feature = "extended_io_error")]` (`HostUnreachable`,
`NetworkUnreachable`, `NetworkDown`, `ReadOnlyFilesystem`). -/
def fromErrorKind : ErrorKind → ExitCode
  | .NotFound => .NoInput
  | .PermissionDenied => .NoPerm
  | .ConnectionRefused | .OutOfMemory => .OsErr
  | .ConnectionReset | .ConnectionAborted | .NotConnected | .BrokenPipe
  | .TimedOut | .Interrupted => .TempFail
  | .HostUnreachable | .NetworkUnreachable => .NoHost
  | .AddrInUse | .AddrNotAvailable => .Unavailable
  | .NetworkDown => .Unavailable
  | .AlreadyExists => .CantCreat
  | .WouldBlock | .Unsupported => .Protocol
  | .ReadOnlyFilesystem => .CantCreat
  | .InvalidInput | .InvalidData => .DataErr
  | .WriteZero | .UnexpectedEof => .Software
  | _ => .IoErr

/-- The categories named by an explicit (non-catch-all) arm of the match in
`From<std::io::ErrorKind> for ExitCode` (src/exit_code/convert.rs, lines
187-207). -/
def explicitlyListed : ErrorKind → Bool
  | .NotFound | .PermissionDenied | .ConnectionRefused | .OutOfMemory
  | .ConnectionReset | .ConnectionAborted | .NotConnected | .BrokenPipe
  | .TimedOut | .Interrupted | .HostUnreachable | .NetworkUnreachable
  | .AddrInUse | .AddrNotAvailable | .NetworkDown | .AlreadyExists
  | .WouldBlock | .Unsupported | .ReadOnlyFilesystem | .InvalidInput
  | .InvalidData | .WriteZero | .UnexpectedEof => true
  | _ => false

/-- A full I/O error object, modelled by the only datum the conversion
inspects: its category (src/exit_code/convert.rs, lines 164-167 call
`error.kind()`). -/
structure IoError where
  kind : ErrorKind

/-- Mirrors `From<std::io::Error> for ExitCode`
(src/exit_code/convert.rs, lines 164-167): `error.kind().into()`. -/
def fromIoError (error : IoError) : ExitCode :=
  fromErrorKind error.kind

/-- Mirrors `TryFromExitStatusError` (src/error.rs, lines 44-60): an
`Option<i32>` payload, `Some(n)` for an unrepresentable exit code `n`,
`None` when the process terminated without a code. -/
structure TryFromExitStatusError where
  code : Option Int
deriving DecidableEq

/-- Mirrors `TryFromExitStatusError::new` (src/error.rs, lines 47-50). -/
def TryFromExitStatusError.new (code : Option Int) : TryFromExitStatusError :=
  ⟨code⟩

/-- A process-completion status, modelled by the only datum the conversion
inspects: the result of `status.code()` (src/exit_code/convert.rs, line
228), which is `None` when the process was terminated abnormally. -/
structure ExitStatus where
  code : Option Int

/-- Mirrors `TryFrom<std::process::ExitStatus> for ExitCode`
(src/exit_code/convert.rs, lines 227-248): an exhaustive match on
`status.code()` over the 17 legal literals, then
`Some(code) => Err(new(Some(code)))` and `None => Err(new(None))`. -/
def tryFromExitStatus (status : ExitStatus) : Except TryFromExitStatusError ExitCode :=
  match status.code with
  | some 0 => .ok .Ok
  | some 64 => .ok .Usage
  | some 65 => .ok .DataErr
  | some 66 => .ok .NoInput
  | some 67 => .ok .NoUser
  | some 68 => .ok .NoHost
  | some 69 => .ok .Unavailable
  | some 70 => .ok .Software
  | some 71 => .ok .OsErr
  | some 72 => .ok .OsFile
  | some 73 => .ok .CantCreat
  | some 74 => .ok .IoErr
  | some 75 => .ok .TempFail
  | some 76 => .ok .Protocol
  | some 77 => .ok .NoPerm
  | some 78 => .ok .Config
  | some code => .error (TryFromExitStatusError.new (some code))
  | none => .error (TryFromExitStatusError.new none)

/-- Mirrors `From<Result<T>> for ExitCode` (src/exit_code/result.rs, lines
41-43): `result.map_or_else(|code| code, |_| Self::Ok)`, where `Result<T>`
is `core::result::Result<T, ExitCode>`. -/
def fromResult {T : Type} (result : Except ExitCode T) : ExitCode :=
  match result with
  | .ok _ => .Ok
  | .error code => code

/-- Modelled from the spec: the sources under src/ contain the `ExitCode`
enum declaration but no `Default` implementation for it; the spec states
that `Ok` is the designated default value, so the default is modelled as
`ExitCode.Ok`. -/
def ExitCode.default : ExitCode :=
  ExitCode.Ok

/-- C1: for every integer value `n` (the match body of `TryFrom<$T>` is the
same literal table for all twelve implemented widths, each of which embeds
into `Int` preserving the literals), the fallible conversion succeeds with
the variant whose underlying value is `n` exactly when `n = 0` or
`64 ≤ n ≤ 78`, and fails with the range error for every other `n`. -/
theorem try_from_integer_range (n : Int) :
    ((n = 0 ∨ (64 ≤ n ∧ n ≤ 78)) →
      ∃ c : ExitCode, tryFromInt n = Except.ok c ∧ c.toInt = n) ∧
    (¬(n = 0 ∨ (64 ≤ n ∧ n ≤ 78)) →
      tryFromInt n = Except.error ExitCodeRangeError.mk) := by
  constructor
  · rintro (rfl | ⟨h1, h2⟩)
    · exact ⟨.Ok, rfl, rfl⟩
    · interval_cases n <;> exact ⟨_, rfl, rfl⟩
  · intro h
    unfold tryFromInt
    split <;> first | rfl | (exfalso; omega)

/-- C1 witness: the conversion succeeds at 64 and fails at 79. -/
theorem try_from_integer_range_witness :
    (∃ c : ExitCode, tryFromInt 64 = Except.ok c ∧ c.toInt = 64) ∧
    tryFromInt 79 = Except.error ExitCodeRangeError.mk :=
  ⟨(try_from_integer_range 64).1 (Or.inr (by decide)),
    (try_from_integer_range 79).2 (by decide)⟩

/-- C2: the classifier is total by construction (a Lean function
`ErrorKind → ExitCode` with no error channel, mirroring the infallible
`From` impl with its catch-all arm), so every category maps to some
variant; and every category without an explicit arm maps to `IoErr`. -/
theorem from_error_kind_total (k : ErrorKind) :
    (∃ c : ExitCode, fromErrorKind k = c) ∧
    (explicitlyListed k = false → fromErrorKind k = ExitCode.IoErr) := by
  refine ⟨⟨fromErrorKind k, rfl⟩, ?_⟩
  intro h
  cases k <;> first | rfl | (exact absurd h (by decide))

/-- C2 witness: the unlisted category `Other` maps to `IoErr`. -/
theorem from_error_kind_total_witness :
    fromErrorKind ErrorKind.Other = ExitCode.IoErr :=
  (from_error_kind_total ErrorKind.Other).2 rfl

/-- C3 counterexample: the claim says the classifier maps "host
unreachable" to `OsErr`, but the code (src/exit_code/convert.rs line 198)
maps it to `NoHost`. -/
theorem from_error_kind_host_unreachable_cex :
    fromErrorKind ErrorKind.HostUnreachable = ExitCode.NoHost ∧
    fromErrorKind ErrorKind.HostUnreachable ≠ ExitCode.OsErr := by
  decide

/-- C3 amended: the classifier maps "connection refused" and "out of
memory" to `OsErr`, and "host unreachable" and "network unreachable" to
`NoHost`. -/
theorem from_error_kind_os_err_group :
    fromErrorKind ErrorKind.ConnectionRefused = ExitCode.OsErr ∧
    fromErrorKind ErrorKind.OutOfMemory = ExitCode.OsErr ∧
    fromErrorKind ErrorKind.HostUnreachable = ExitCode.NoHost ∧
    fromErrorKind ErrorKind.NetworkUnreachable = ExitCode.NoHost := by
  decide

/-- C4: the classifier maps each listed category group to its listed
variant, per the match arms at src/exit_code/convert.rs lines 187-207. -/
theorem from_error_kind_table :
    fromErrorKind ErrorKind.NotFound = ExitCode.NoInput ∧
    fromErrorKind ErrorKind.PermissionDenied = ExitCode.NoPerm ∧
    fromErrorKind ErrorKind.ConnectionReset = ExitCode.TempFail ∧
    fromErrorKind ErrorKind.ConnectionAborted = ExitCode.TempFail ∧
    fromErrorKind ErrorKind.NotConnected = ExitCode.TempFail ∧
    fromErrorKind ErrorKind.BrokenPipe = ExitCode.TempFail ∧
    fromErrorKind ErrorKind.TimedOut = ExitCode.TempFail ∧
    fromErrorKind ErrorKind.Interrupted = ExitCode.TempFail ∧
    fromErrorKind ErrorKind.AddrInUse = ExitCode.Unavailable ∧
    fromErrorKind ErrorKind.AddrNotAvailable = ExitCode.Unavailable ∧
    fromErrorKind ErrorKind.NetworkDown = ExitCode.Unavailable ∧
    fromErrorKind ErrorKind.AlreadyExists = ExitCode.CantCreat ∧
    fromErrorKind ErrorKind.ReadOnlyFilesystem = ExitCode.CantCreat ∧
    fromErrorKind ErrorKind.WouldBlock = ExitCode.Protocol ∧
    fromErrorKind ErrorKind.Unsupported = ExitCode.Protocol ∧
    fromErrorKind ErrorKind.InvalidInput = ExitCode.DataErr ∧
    fromErrorKind ErrorKind.InvalidData = ExitCode.DataErr ∧
    fromErrorKind ErrorKind.WriteZero = ExitCode.Software ∧
    fromErrorKind ErrorKind.UnexpectedEof = ExitCode.Software := by
  decide

/-- C5: decoding a process-completion status: a present code in the legal
set succeeds with the matching variant; a present code outside the set
fails with the status-conversion error carrying `Some(n)` (retrievable via
`code`); an absent code fails with the error carrying `None`. -/
theorem try_from_exit_status_correct (s : ExitStatus) (n : Int) :
    (s.code = some n → (n = 0 ∨ (64 ≤ n ∧ n ≤ 78)) →
      ∃ c : ExitCode, tryFromExitStatus s = Except.ok c ∧ c.toInt = n) ∧
    (s.code = some n → ¬(n = 0 ∨ (64 ≤ n ∧ n ≤ 78)) →
      tryFromExitStatus s = Except.error (TryFromExitStatusError.new (some n)) ∧
        (TryFromExitStatusError.new (some n)).code = some n) ∧
    (s.code = none →
      tryFromExitStatus s = Except.error (TryFromExitStatusError.new none) ∧
        (TryFromExitStatusError.new none).code = none) := by
  obtain ⟨oc⟩ := s
  refine ⟨?_, ?_, ?_⟩
  · rintro rfl (rfl | ⟨h1, h2⟩)
    · exact ⟨.Ok, rfl, rfl⟩
    · interval_cases n <;> exact ⟨_, rfl, rfl⟩
  · rintro rfl h
    refine ⟨?_, rfl⟩
    unfold tryFromExitStatus
    split <;> simp_all
  · rintro rfl
    exact ⟨rfl, rfl⟩

/-- C5 witness: `Some(0)` succeeds with `Ok`, `Some(79)` fails carrying
`Some(79)`, and `None` fails carrying `None`. -/
theorem try_from_exit_status_correct_witness :
    (∃ c : ExitCode, tryFromExitStatus ⟨some 0⟩ = Except.ok c ∧ c.toInt = 0) ∧
    (tryFromExitStatus ⟨some 79⟩ =
        Except.error (TryFromExitStatusError.new (some 79)) ∧
      (TryFromExitStatusError.new (some 79)).code = some 79) ∧
    (tryFromExitStatus ⟨none⟩ = Except.error (TryFromExitStatusError.new none) ∧
      (TryFromExitStatusError.new none).code = none) :=
  ⟨(try_from_exit_status_correct ⟨some 0⟩ 0).1 rfl (Or.inl rfl),
    (try_from_exit_status_correct ⟨some 79⟩ 79).2.1 rfl (by decide),
    (try_from_exit_status_correct ⟨none⟩ 0).2.2 rfl⟩

/-- C6: converting any variant to its integer value and back through the
fallible conversion round-trips to the same variant (the integer direction
is the same discriminant cast for every implemented width, and the match of
the fallible direction is the same literal table for every width). -/
theorem exit_code_int_roundtrip :
    ∀ c : ExitCode, tryFromInt c.toInt = Except.ok c := by
  intro c
  cases c <;> rfl

/-- C7: the infallible integer direction yields exactly the fixed table
value of each variant, hence a value that is always 0 or in 64..=78 (and so
fits every implemented width, including 8-bit signed, whose range contains
0..=78). -/
theorem exit_code_to_int_table :
    (ExitCode.toInt .Ok = 0 ∧ ExitCode.toInt .Usage = 64 ∧
      ExitCode.toInt .DataErr = 65 ∧ ExitCode.toInt .NoInput = 66 ∧
      ExitCode.toInt .NoUser = 67 ∧ ExitCode.toInt .NoHost = 68 ∧
      ExitCode.toInt .Unavailable = 69 ∧ ExitCode.toInt .Software = 70 ∧
      ExitCode.toInt .OsErr = 71 ∧ ExitCode.toInt .OsFile = 72 ∧
      ExitCode.toInt .CantCreat = 73 ∧ ExitCode.toInt .IoErr = 74 ∧
      ExitCode.toInt .TempFail = 75 ∧ ExitCode.toInt .Protocol = 76 ∧
      ExitCode.toInt .NoPerm = 77 ∧ ExitCode.toInt .Config = 78) ∧
    ∀ c : ExitCode, c.toInt = 0 ∨ (64 ≤ c.toInt ∧ c.toInt ≤ 78) :=
  ⟨by decide, fun c => by cases c <;> decide⟩

/-- C8: the collapsing conversion from `Result<T, ExitCode>` maps every
success to `ExitCode.Ok` regardless of the payload, and passes every error
variant through unchanged. -/
theorem from_result_collapse :
    (∀ (T : Type) (t : T), fromResult (Except.ok t) = ExitCode.Ok) ∧
    (∀ (T : Type) (c : ExitCode),
      fromResult (Except.error c : Except ExitCode T) = c) :=
  ⟨fun _ _ => rfl, fun _ _ => rfl⟩

/-- C9: the designated default value of `ExitCode` is the `Ok` variant
(and is therefore a success value). -/
theorem exit_code_default_is_ok :
    ExitCode.default = ExitCode.Ok ∧ ExitCode.default.is_success = true := by
  decide

/-- C10: the classifier never returns the `Ok` variant: `is_failure` holds
of its output for every category, and likewise for the conversion from a
full I/O error object, which delegates to the classifier on the error's
category. -/
theorem from_error_kind_never_success :
    (∀ k : ErrorKind, (fromErrorKind k).is_failure = true) ∧
    (∀ e : IoError, (fromIoError e).is_failure = true) := by
  constructor
  · intro k
    cases k <;> rfl
  · intro e
    obtain ⟨k⟩ := e
    cases k <;> rfl

end Sysexits
